import Mathlib

/-
Verification of the CharGer germline-variant classification engine.

The repository's visible source is the command-line front end
(src/charger/console.py); the core engine modules (classifier, config,
argtype) are declared and called there but their bodies are not in the
repository snapshot.  Where a definition embeds visible source code its
doc comment names the source location; where the deciding code is absent
the definition is modelled from the specification and its doc comment
says so explicitly.
-/

namespace CharGer

/-- The five pathogenicity tiers a variant can be assigned. -/
inductive Tier where
  | pathogenic
  | likelyPathogenic
  | uncertain
  | likelyBenign
  | benign
deriving DecidableEq, Repr

/-- Modelled from the spec: the Threshold Set of `charger.config.CharGerConfig`
(config.py is absent from the snapshot; console.py lines 139-183 declare the
six corresponding command-line options `--rare-threshold`,
`--common-threshold`, `--min-pathogenic-score`, `--min-likely-pathogenic-score`,
`--max-likely-benign-score`, `--max-benign-score`). -/
structure ThresholdSet where
  min_pathogenic_score : ℤ
  min_likely_pathogenic_score : ℤ
  max_likely_benign_score : ℤ
  max_benign_score : ℤ
  rare_threshold : ℚ
  common_threshold : ℚ
deriving DecidableEq, Repr

/-- Modelled from the spec: the Classifier decision chain of
`charger.classifier` (classifier.py is absent from the snapshot).  An ordered
first-match chain mapping an integer aggregate score to a tier. -/
def classify (score : ℤ) (ts : ThresholdSet) : Tier :=
  if ts.min_pathogenic_score ≤ score then Tier.pathogenic
  else if ts.min_likely_pathogenic_score ≤ score then Tier.likelyPathogenic
  else if score ≤ ts.max_benign_score then Tier.benign
  else if score ≤ ts.max_likely_benign_score then Tier.likelyBenign
  else Tier.uncertain

/-- Modelled from the spec: the Threshold Set validity invariant checked at
configuration time (the validating transition lives in the absent
`charger.classifier` setup code). -/
def validThresholds (ts : ThresholdSet) : Bool :=
  decide (ts.min_likely_pathogenic_score ≤ ts.min_pathogenic_score) &&
  decide (ts.max_likely_benign_score < ts.min_likely_pathogenic_score) &&
  decide (ts.max_benign_score ≤ ts.max_likely_benign_score) &&
  decide (ts.rare_threshold ≤ ts.common_threshold)

/-- Modelled from the spec: configuration-time validation of the Threshold
Set; an invalid ordering is rejected before any variant is processed and a
valid one is passed through unchanged (never normalized). -/
def validateThresholds (ts : ThresholdSet) : Except String ThresholdSet :=
  if validThresholds ts then Except.ok ts
  else Except.error "invalid threshold ordering"

/-- The Threshold Set validity invariant, phrased as a proposition. -/
lemma validThresholds_iff (ts : ThresholdSet) :
    validThresholds ts = true ↔
      ts.min_likely_pathogenic_score ≤ ts.min_pathogenic_score ∧
      ts.max_likely_benign_score < ts.min_likely_pathogenic_score ∧
      ts.max_benign_score ≤ ts.max_likely_benign_score ∧
      ts.rare_threshold ≤ ts.common_threshold := by
  simp [validThresholds, Bool.and_eq_true, decide_eq_true_eq, and_assoc]

/-- C1: for every integer aggregate score and every valid Threshold Set the
Classifier returns exactly one of the five tiers, determined by an ordered
first-match chain: score above the pathogenic minimum gives Pathogenic, else
above the likely-pathogenic minimum gives LikelyPathogenic, else at or below
the benign maximum gives Benign, else at or below the likely-benign maximum
gives LikelyBenign, else Uncertain.  Each tier is characterized exactly by
its chain condition, so no score is unclassifiable and none receives two
tiers. -/
theorem classify_first_match_chain (score : ℤ) (ts : ThresholdSet)
    (_hv : validThresholds ts = true) :
    (classify score ts = Tier.pathogenic ↔
      ts.min_pathogenic_score ≤ score) ∧
    (classify score ts = Tier.likelyPathogenic ↔
      ¬ ts.min_pathogenic_score ≤ score ∧
      ts.min_likely_pathogenic_score ≤ score) ∧
    (classify score ts = Tier.benign ↔
      ¬ ts.min_pathogenic_score ≤ score ∧
      ¬ ts.min_likely_pathogenic_score ≤ score ∧
      score ≤ ts.max_benign_score) ∧
    (classify score ts = Tier.likelyBenign ↔
      ¬ ts.min_pathogenic_score ≤ score ∧
      ¬ ts.min_likely_pathogenic_score ≤ score ∧
      ¬ score ≤ ts.max_benign_score ∧
      score ≤ ts.max_likely_benign_score) ∧
    (classify score ts = Tier.uncertain ↔
      ¬ ts.min_pathogenic_score ≤ score ∧
      ¬ ts.min_likely_pathogenic_score ≤ score ∧
      ¬ score ≤ ts.max_benign_score ∧
      ¬ score ≤ ts.max_likely_benign_score) := by
  unfold classify
  split_ifs with h1 h2 h3 h4 <;> simp_all

/-- Concrete instantiation of the chain characterization: with thresholds
(8, 5, -4, -8) a score of 9 is classified Pathogenic. -/
theorem classify_first_match_chain_witness :
    classify 9 ⟨8, 5, -4, -8, 0, 1⟩ = Tier.pathogenic :=
  ((classify_first_match_chain 9 ⟨8, 5, -4, -8, 0, 1⟩ (by decide)).1).mpr
    (by decide)

/-- C2: a Threshold Set whose six values violate the ordering invariant is
rejected at configuration time with an error, and a Threshold Set that is
accepted is passed through bitwise unchanged — the values are never silently
normalized into a valid ordering. -/
theorem thresholds_validated_never_normalized (ts : ThresholdSet) :
    (¬ (ts.min_likely_pathogenic_score ≤ ts.min_pathogenic_score ∧
        ts.max_likely_benign_score < ts.min_likely_pathogenic_score ∧
        ts.max_benign_score ≤ ts.max_likely_benign_score ∧
        ts.rare_threshold ≤ ts.common_threshold) →
      validateThresholds ts = Except.error "invalid threshold ordering") ∧
    (∀ ts2 : ThresholdSet, validateThresholds ts = Except.ok ts2 → ts2 = ts) := by
  constructor
  · intro hbad
    have hfalse : validThresholds ts = false := by
      rw [Bool.eq_false_iff]
      intro htrue
      exact hbad ((validThresholds_iff ts).mp htrue)
    unfold validateThresholds
    rw [hfalse]
    rfl
  · intro ts2 hok
    unfold validateThresholds at hok
    by_cases hv : validThresholds ts = true
    · rw [if_pos hv] at hok
      exact (Except.ok.injEq _ _).mp hok.symm
    · rw [if_neg hv] at hok
      exact absurd hok (by simp)

/-- Concrete instantiation of threshold validation: the all-zero Threshold
Set violates the strict bound between likely-pathogenic and likely-benign and
is rejected. -/
theorem thresholds_validated_never_normalized_witness :
    validateThresholds ⟨0, 0, 0, 0, 0, 0⟩ =
      Except.error "invalid threshold ordering" :=
  (thresholds_validated_never_normalized ⟨0, 0, 0, 0, 0, 0⟩).1 (by decide)

/-- Modelled from the spec: the fixed enumeration of evidence codes the
Evidence Module Set can produce (the module bodies in `charger.classifier`
are absent from the snapshot).  The database-concordance code carries the
asserted class it was synthesized from. -/
inductive EvidenceCode where
  | veryStrongLossOfFunction
  | strongKnownPathogenicMatch
  | moderateHotspot
  | supportingPathogenicGeneList
  | supportingBenignGeneList
  | strongBenignFrequency
  | standAloneBenignFrequency
  | databaseConcordance (assertedClass : Tier)
deriving DecidableEq, Repr

/-- Modelled from the spec: one fired rule — an evidence code together with
its boolean met flag. -/
structure EvidenceCall where
  code : EvidenceCode
  met : Bool
deriving DecidableEq, Repr

/-- Modelled from the spec: the Score Aggregator — sums the point value of
every fired call under the given Module Score Table. -/
def aggregateScore (calls : List EvidenceCall) (table : EvidenceCode → ℤ) : ℤ :=
  (calls.map (fun c => table c.code)).sum

/-- Modelled from the spec: the built-in default standards-body Module Score
Table (console.py line 117 reads the defaults from the absent
`CharGerConfig.acmg_module_scores`). -/
def defaultAcmgScoreTable : EvidenceCode → ℤ
  | EvidenceCode.veryStrongLossOfFunction => 8
  | EvidenceCode.strongKnownPathogenicMatch => 4
  | EvidenceCode.moderateHotspot => 2
  | EvidenceCode.supportingPathogenicGeneList => 1
  | EvidenceCode.supportingBenignGeneList => -1
  | EvidenceCode.strongBenignFrequency => -4
  | EvidenceCode.standAloneBenignFrequency => -8
  | EvidenceCode.databaseConcordance Tier.pathogenic => 8
  | EvidenceCode.databaseConcordance Tier.likelyPathogenic => 5
  | EvidenceCode.databaseConcordance Tier.uncertain => 0
  | EvidenceCode.databaseConcordance Tier.likelyBenign => -5
  | EvidenceCode.databaseConcordance Tier.benign => -8

/-- C7: the Score Aggregator is order-independent — permuting the list of
fired Evidence Calls (equivalently, the module execution order within one
scheme) never changes the integer aggregate score, for every Module Score
Table. -/
theorem aggregate_order_independent (calls1 calls2 : List EvidenceCall)
    (table : EvidenceCode → ℤ) (hperm : calls1.Perm calls2) :
    aggregateScore calls1 table = aggregateScore calls2 table := by
  unfold aggregateScore
  exact List.Perm.sum_eq (hperm.map (fun c => table c.code))

/-- Concrete instantiation of aggregation order-independence: swapping two
fired calls leaves the default-table score unchanged. -/
theorem aggregate_order_independent_witness :
    aggregateScore
        [⟨EvidenceCode.strongBenignFrequency, true⟩,
         ⟨EvidenceCode.veryStrongLossOfFunction, true⟩]
        defaultAcmgScoreTable =
      aggregateScore
        [⟨EvidenceCode.veryStrongLossOfFunction, true⟩,
         ⟨EvidenceCode.strongBenignFrequency, true⟩]
        defaultAcmgScoreTable :=
  aggregate_order_independent _ _ defaultAcmgScoreTable
    (List.Perm.swap _ _ _)

/-- Modelled from the spec: the three-valued outcome of evaluating one
module on one record — skipped because its resource is missing, evaluated
but not met, or fired with an Evidence Call.  The skipped outcome is a
distinct value from the not-met outcome. -/
inductive ModuleOutcome where
  | skippedMissingResource
  | evaluatedNotMet
  | fired (call : EvidenceCall)
deriving DecidableEq, Repr

/-- The evidence calls contributed by one module outcome (zero or one). -/
def firedCalls : ModuleOutcome → List EvidenceCall
  | ModuleOutcome.fired c => [c]
  | _ => []

/-- The functional consequence category of a variant. -/
inductive Consequence where
  | truncating
  | missense
  | synonymous
  | otherConsequence
deriving DecidableEq, Repr

/-- Modelled from the spec: the Variant Annotation Record — identity fields
plus the attributes the modules consume. -/
structure VariantRecord where
  chrom : String
  pos : ℕ
  ref_allele : String
  alt_allele : String
  gene : String
  consequence : Consequence
  frequency : Option ℚ
deriving DecidableEq, Repr

/-- Modelled from the spec: one row of the inheritance gene table
(console.py lines 88-96 declare the `--inheritance-gene-table` option with
columns gene, disease, mode_of_inheritance; the loader is absent).  The
mode is reduced to whether loss of function is a known mechanism. -/
structure InheritanceEntry where
  gene : String
  disease : String
  lossOfFunctionMechanism : Bool
deriving DecidableEq, Repr

/-- Modelled from the spec: the loss-of-function-in-haploinsufficiency-gene
(PVS1) module.  Absent inheritance-gene-table resource means the module is
skipped entirely; otherwise it fires very-strong when the consequence is
truncating and the gene is marked with a loss-of-function mechanism. -/
def pvs1Module (table : Option (List InheritanceEntry)) (v : VariantRecord) :
    ModuleOutcome :=
  match table with
  | none => ModuleOutcome.skippedMissingResource
  | some entries =>
      if v.consequence = Consequence.truncating ∧
          ∃ e ∈ entries, e.gene = v.gene ∧ e.lossOfFunctionMechanism = true then
        ModuleOutcome.fired ⟨EvidenceCode.veryStrongLossOfFunction, true⟩
      else ModuleOutcome.evaluatedNotMet

/-- C5: when the inheritance-gene-table resource is not supplied, the PVS1
module produces zero evidence calls for every variant record regardless of
consequence category, and its outcome is the skipped-missing-resource value,
which is distinct from the evaluated-not-met value. -/
theorem pvs1_skipped_without_inheritance_table (v : VariantRecord) :
    pvs1Module none v = ModuleOutcome.skippedMissingResource ∧
    firedCalls (pvs1Module none v) = [] ∧
    ModuleOutcome.skippedMissingResource ≠ ModuleOutcome.evaluatedNotMet :=
  ⟨rfl, rfl, by simp⟩

/-- Modelled from the spec: the frequency above which benign frequency
evidence strengthens to stand-alone. -/
def standAloneFrequencyCutoff : ℚ := 1 / 20

/-- Modelled from the spec: the allele-frequency module — fires benign
evidence of increasing strength once the population frequency reaches the
common threshold (console.py line 152: minimal allele frequency to be a
common variant), and fires nothing below it; in particular it never fires
below the rare threshold. -/
def alleleFrequencyModule (ts : ThresholdSet) (freq : ℚ) :
    Option EvidenceCall :=
  if ts.common_threshold ≤ freq then
    if standAloneFrequencyCutoff ≤ freq then
      some ⟨EvidenceCode.standAloneBenignFrequency, true⟩
    else some ⟨EvidenceCode.strongBenignFrequency, true⟩
  else none

/-- Numeric strength of a benign frequency evidence call (0 when nothing
fired). -/
def benignFrequencyStrength : Option EvidenceCall → ℕ
  | none => 0
  | some c =>
      match c.code with
      | EvidenceCode.strongBenignFrequency => 1
      | EvidenceCode.standAloneBenignFrequency => 2
      | _ => 0

/-- C4: for every valid pair of frequency thresholds, the allele-frequency
module fires benign evidence above the common threshold with strength
monotone in the frequency, never fires below the rare threshold, and fires
nothing at all — neither benign nor pathogenic — for a frequency strictly
between the two thresholds. -/
theorem allele_frequency_module_behavior (ts : ThresholdSet) (f1 : ℚ)
    (hv : ts.rare_threshold ≤ ts.common_threshold) :
    (ts.common_threshold < f1 →
      ∃ c : EvidenceCall, alleleFrequencyModule ts f1 = some c ∧
        (c.code = EvidenceCode.strongBenignFrequency ∨
         c.code = EvidenceCode.standAloneBenignFrequency)) ∧
    (f1 < ts.rare_threshold → alleleFrequencyModule ts f1 = none) ∧
    (ts.rare_threshold < f1 ∧ f1 < ts.common_threshold →
      alleleFrequencyModule ts f1 = none) ∧
    (∀ f2 : ℚ, f1 ≤ f2 →
      benignFrequencyStrength (alleleFrequencyModule ts f1) ≤
        benignFrequencyStrength (alleleFrequencyModule ts f2)) := by
  refine ⟨?_, ?_, ?_, ?_⟩
  · intro h
    unfold alleleFrequencyModule
    rw [if_pos (le_of_lt h)]
    split_ifs with hc
    · exact ⟨_, rfl, Or.inr rfl⟩
    · exact ⟨_, rfl, Or.inl rfl⟩
  · intro h
    unfold alleleFrequencyModule
    rw [if_neg (by push_neg; linarith)]
  · intro h
    obtain ⟨h1, h2⟩ := h
    unfold alleleFrequencyModule
    rw [if_neg (by push_neg; linarith)]
  · intro f2 hle
    unfold alleleFrequencyModule
    split_ifs with c1 c2 c3 c4 <;>
      simp [benignFrequencyStrength] <;> linarith

/-- Concrete instantiation of the frequency-module behavior: with rare
threshold 1 and common threshold 3 a frequency of 2 lying strictly between
them fires nothing. -/
theorem allele_frequency_module_behavior_witness :
    (1 : ℚ) ≤ 3 ∧
      alleleFrequencyModule ⟨8, 5, -4, -8, 1, 3⟩ 2 = none :=
  ⟨by decide,
   ((allele_frequency_module_behavior ⟨8, 5, -4, -8, 1, 3⟩
        2 (by decide)).2.2.1) ⟨by decide, by decide⟩⟩

/-- Modelled from the spec: `ModuleScoreOverrideType` of `charger.argtype`
(absent from the snapshot; console.py lines 114-129 pass the built-in
defaults of `CharGerConfig` to it).  The default Module Score Table is an
association list keyed by evidence-code name; a partial override mapping is
applied to it.  An override key that is not a recognized code of the table
is a configuration error, raised while the console arguments are parsed and
therefore before any variant is processed; otherwise each named code takes
its override value and every other code keeps its built-in default. -/
def applyScoreOverrides (defaults overrides : List (String × ℤ)) :
    Except String (List (String × ℤ)) :=
  match overrides.find? (fun o => (defaults.lookup o.1).isNone) with
  | some o => Except.error (String.append "Unknown module: " o.1)
  | none =>
      Except.ok (defaults.map (fun d =>
        match overrides.lookup d.1 with
        | some v => (d.1, v)
        | none => d))

/-- Looking a key up in the overridden table gives the override value when
the key is named in the override mapping and the default value otherwise. -/
lemma lookup_apply_overrides (overrides defaults : List (String × ℤ))
    (k : String) :
    (defaults.map (fun d =>
        match overrides.lookup d.1 with
        | some v => (d.1, v)
        | none => d)).lookup k
      = (defaults.lookup k).map (fun dv => (overrides.lookup k).getD dv) := by
  induction defaults with
  | nil => rfl
  | cons hd tl ih =>
      cases hbeq : (k == hd.1) with
      | true =>
          have hk : k = hd.1 := eq_of_beq hbeq
          cases hov : overrides.lookup hd.1 <;>
            simp [List.lookup, hbeq, hk, hov]
      | false =>
          cases hov : overrides.lookup hd.1 <;>
            simp [List.lookup, hov, hbeq, ih]

/-- C6: an override mapping containing a key that is not a recognized
evidence code of the score table is rejected with a configuration error,
while a mapping whose keys are all recognized is accepted and overrides
exactly the named codes, leaving every other code at its built-in default
value. -/
theorem score_override_validation (defaults overrides : List (String × ℤ)) :
    (∀ badKey badVal, (badKey, badVal) ∈ overrides →
      defaults.lookup badKey = none →
      ∃ msg, applyScoreOverrides defaults overrides = Except.error msg) ∧
    (∀ result, applyScoreOverrides defaults overrides = Except.ok result →
      ∀ k : String, result.lookup k =
        (defaults.lookup k).map (fun dv => (overrides.lookup k).getD dv)) := by
  constructor
  · intro badKey badVal hmem hnone
    have hsome : (overrides.find?
        (fun o => (defaults.lookup o.1).isNone)).isSome := by
      rw [List.find?_isSome]
      exact ⟨(badKey, badVal), hmem, by simp [hnone]⟩
    unfold applyScoreOverrides
    cases hfind : overrides.find? (fun o => (defaults.lookup o.1).isNone) with
    | none => rw [hfind] at hsome; simp at hsome
    | some o => exact ⟨_, rfl⟩
  · intro result hok k
    unfold applyScoreOverrides at hok
    cases hfind : overrides.find? (fun o => (defaults.lookup o.1).isNone) with
    | some o => rw [hfind] at hok; exact absurd hok (by simp)
    | none =>
        rw [hfind] at hok
        have hres := (Except.ok.injEq _ _).mp hok.symm
        rw [hres]
        exact lookup_apply_overrides overrides defaults k

/-- Concrete instantiation of override validation: overriding the
unrecognized code RUBBISH fails, while overriding only PM1 leaves PVS1 at
its default and sets PM1 to the override value. -/
theorem score_override_validation_witness :
    (∃ msg, applyScoreOverrides [("PVS1", 8), ("PM1", 2)] [("RUBBISH", 1)]
        = Except.error msg) ∧
    ([("PVS1", (8 : ℤ)), ("PM1", 3)] : List (String × ℤ)).lookup "PM1"
        = some 3 ∧
    ([("PVS1", (8 : ℤ)), ("PM1", 3)] : List (String × ℤ)).lookup "PVS1"
        = some 8 := by
  refine ⟨(score_override_validation [("PVS1", 8), ("PM1", 2)]
      [("RUBBISH", 1)]).1 "RUBBISH" 1 (by simp) (by decide), ?_, ?_⟩
  · have h := (score_override_validation [("PVS1", 8), ("PM1", 2)]
        [("PM1", 3)]).2 [("PVS1", 8), ("PM1", 3)] rfl "PM1"
    exact h.trans (by decide)
  · have h := (score_override_validation [("PVS1", 8), ("PM1", 2)]
        [("PM1", 3)]).2 [("PVS1", 8), ("PM1", 3)] rfl "PVS1"
    exact h.trans (by decide)

/-- Exact variant identity: chromosome, position, reference and alternate
allele. -/
structure VariantKey where
  chrom : String
  pos : ℕ
  ref_allele : String
  alt_allele : String
deriving DecidableEq, Repr

/-- The identity key of a variant record. -/
def keyOf (v : VariantRecord) : VariantKey :=
  ⟨v.chrom, v.pos, v.ref_allele, v.alt_allele⟩

/-- Modelled from the spec: the mutational-hotspot module — skipped when the
hotspot-cluster resource (console.py lines 70-75, `--hotspot3d-cluster`) is
absent, fires moderate when the variant position matches a cluster entry. -/
def hotspotModule (clusters : Option (List (String × ℕ)))
    (v : VariantRecord) : ModuleOutcome :=
  match clusters with
  | none => ModuleOutcome.skippedMissingResource
  | some cs =>
      if (v.chrom, v.pos) ∈ cs then
        ModuleOutcome.fired ⟨EvidenceCode.moderateHotspot, true⟩
      else ModuleOutcome.evaluatedNotMet

/-- Modelled from the spec: the known-pathogenic-match module — fires strong
on exact key identity with an entry of the known-pathogenic resource
(console.py lines 64-69, `--pathogenic-variant`). -/
def knownPathogenicModule (known : Option (List VariantKey))
    (v : VariantRecord) : ModuleOutcome :=
  match known with
  | none => ModuleOutcome.skippedMissingResource
  | some ks =>
      if keyOf v ∈ ks then
        ModuleOutcome.fired ⟨EvidenceCode.strongKnownPathogenicMatch, true⟩
      else ModuleOutcome.evaluatedNotMet

/-- Modelled from the spec: a gene-list membership module (console.py lines
102-113 declare the PP2 and BP1 gene-list options); fires the given code
when the gene symbol is in the supplied list, skipped when the list was not
supplied. -/
def geneListModule (code : EvidenceCode) (genes : Option (List String))
    (g : String) : ModuleOutcome :=
  match genes with
  | none => ModuleOutcome.skippedMissingResource
  | some gs =>
      if g ∈ gs then ModuleOutcome.fired ⟨code, true⟩
      else ModuleOutcome.evaluatedNotMet

/-- Modelled from the spec: the frequency module lifted to a full record —
skipped when the record carries no population frequency, otherwise the
allele-frequency module decides. -/
def frequencyModule (ts : ThresholdSet) (v : VariantRecord) : ModuleOutcome :=
  match v.frequency with
  | none => ModuleOutcome.skippedMissingResource
  | some f =>
      match alleleFrequencyModule ts f with
      | some c => ModuleOutcome.fired c
      | none => ModuleOutcome.evaluatedNotMet

/-- Modelled from the spec: one row of the pathogenicity-annotation (ClinVar)
table (console.py lines 131-137 declare the `--clinvar-table` option), keyed
by exact variant identity and carrying the asserted classification. -/
structure ClinVarRecord where
  key : VariantKey
  assertedClass : Tier
deriving DecidableEq, Repr

/-- Lookup of the exact variant in the pathogenicity-annotation table. -/
def clinvarMatch (table : List ClinVarRecord) (v : VariantRecord) :
    Option ClinVarRecord :=
  table.find? (fun e => decide (e.key = keyOf v))

/-- Modelled from the spec: the Reference Resources owned by the Run
Orchestrator; optional ones carry an absent sentinel. -/
structure Resources where
  inheritanceGeneTable : Option (List InheritanceEntry)
  hotspotClusters : Option (List (String × ℕ))
  pathogenicVariants : Option (List VariantKey)
  pp2GeneList : Option (List String)
  bp1GeneList : Option (List String)
  clinvarTable : List ClinVarRecord

/-- Modelled from the spec: the part of `CharGerConfig` the engine consumes —
thresholds, the override-variant-info feature flag (console.py lines 76-80)
and the two Module Score Tables. -/
structure EngineConfig where
  thresholds : ThresholdSet
  overrideVariantInfo : Bool
  acmgScores : EvidenceCode → ℤ
  chargerScores : EvidenceCode → ℤ

/-- Replace the override-variant-info flag of a configuration. -/
def setOverrideFlag (cfg : EngineConfig) (b : Bool) : EngineConfig :=
  ⟨cfg.thresholds, b, cfg.acmgScores, cfg.chargerScores⟩

/-- The module outcomes that are independent of the frequency/hotspot pair. -/
def baseModuleOutcomes (res : Resources) (v : VariantRecord) :
    List ModuleOutcome :=
  [pvs1Module res.inheritanceGeneTable v,
   knownPathogenicModule res.pathogenicVariants v,
   geneListModule EvidenceCode.supportingPathogenicGeneList res.pp2GeneList
     v.gene,
   geneListModule EvidenceCode.supportingBenignGeneList res.bp1GeneList
     v.gene]

/-- Evidence contributed by the frequency-and-hotspot-independent modules. -/
def baseEvidence (res : Resources) (v : VariantRecord) : List EvidenceCall :=
  ((baseModuleOutcomes res v).map firedCalls).flatten

/-- Evidence contributed by the frequency and hotspot modules. -/
def freqHotspotEvidence (cfg : EngineConfig) (res : Resources)
    (v : VariantRecord) : List EvidenceCall :=
  (([frequencyModule cfg.thresholds v,
     hotspotModule res.hotspotClusters v]).map firedCalls).flatten

/-- Modelled from the spec: the single evidence call synthesized by the
database-concordance override, with code and strength derived from the
table's asserted class. -/
def databaseEvidenceCall (e : ClinVarRecord) : EvidenceCall :=
  ⟨EvidenceCode.databaseConcordance e.assertedClass, true⟩

/-- Modelled from the spec: the full per-record evidence evaluation.  When
the override-variant-info flag is enabled and the pathogenicity-annotation
table has a record for this exact variant, the frequency/hotspot
contribution is suppressed and a single database evidence call is
synthesized in its place; otherwise the frequency and hotspot modules
contribute normally. -/
def evaluateRecord (cfg : EngineConfig) (res : Resources)
    (v : VariantRecord) : List EvidenceCall :=
  match
    (if cfg.overrideVariantInfo then clinvarMatch res.clinvarTable v
     else none) with
  | some e => baseEvidence res v ++ [databaseEvidenceCall e]
  | none => baseEvidence res v ++ freqHotspotEvidence cfg res v

/-- Whether a code is one the frequency or hotspot modules can produce. -/
def isFrequencyOrHotspotCode : EvidenceCode → Bool
  | EvidenceCode.strongBenignFrequency => true
  | EvidenceCode.standAloneBenignFrequency => true
  | EvidenceCode.moderateHotspot => true
  | _ => false

/-- Whether a code is a database-concordance code. -/
def isDatabaseCode : EvidenceCode → Bool
  | EvidenceCode.databaseConcordance _ => true
  | _ => false

/-- The result of the full chain on one record: evidence, both aggregate
scores and both tiers. -/
structure RunResult where
  evidence : List EvidenceCall
  acmgScore : ℤ
  chargerScore : ℤ
  acmgTier : Tier
  chargerTier : Tier
deriving DecidableEq, Repr

/-- Modelled from the spec: the full per-record chain — evaluate the enabled
modules, aggregate under both Module Score Tables and classify both
aggregates. -/
def runFullChain (cfg : EngineConfig) (res : Resources)
    (v : VariantRecord) : RunResult :=
  let ev := evaluateRecord cfg res v
  let a := aggregateScore ev cfg.acmgScores
  let c := aggregateScore ev cfg.chargerScores
  ⟨ev, a, c, classify a cfg.thresholds, classify c cfg.thresholds⟩

/-- A call contributed by a module outcome comes from a fired outcome. -/
lemma firedCalls_eq_fired {o : ModuleOutcome} {c : EvidenceCall}
    (h : c ∈ firedCalls o) : o = ModuleOutcome.fired c := by
  cases o with
  | skippedMissingResource => simp [firedCalls] at h
  | evaluatedNotMet => simp [firedCalls] at h
  | fired c2 =>
      simp [firedCalls] at h
      rw [h]

/-- The PVS1 module only ever fires the very-strong loss-of-function call. -/
lemma pvs1Module_fired_code {t : Option (List InheritanceEntry)}
    {v : VariantRecord} {c : EvidenceCall}
    (h : pvs1Module t v = ModuleOutcome.fired c) :
    c = ⟨EvidenceCode.veryStrongLossOfFunction, true⟩ := by
  cases t with
  | none => simp [pvs1Module] at h
  | some entries =>
      simp only [pvs1Module] at h
      split_ifs at h with hc
      exact ((ModuleOutcome.fired.injEq _ _).mp h).symm

/-- The known-pathogenic module only ever fires the strong match call. -/
lemma knownPathogenicModule_fired_code {k : Option (List VariantKey)}
    {v : VariantRecord} {c : EvidenceCall}
    (h : knownPathogenicModule k v = ModuleOutcome.fired c) :
    c = ⟨EvidenceCode.strongKnownPathogenicMatch, true⟩ := by
  cases k with
  | none => simp [knownPathogenicModule] at h
  | some ks =>
      simp only [knownPathogenicModule] at h
      split_ifs at h with hc
      exact ((ModuleOutcome.fired.injEq _ _).mp h).symm

/-- A gene-list module only ever fires the call for its own code. -/
lemma geneListModule_fired_code {code : EvidenceCode}
    {genes : Option (List String)} {g : String} {c : EvidenceCall}
    (h : geneListModule code genes g = ModuleOutcome.fired c) :
    c = ⟨code, true⟩ := by
  cases genes with
  | none => simp [geneListModule] at h
  | some gs =>
      simp only [geneListModule] at h
      split_ifs at h with hc
      exact ((ModuleOutcome.fired.injEq _ _).mp h).symm

/-- The hotspot module only ever fires the moderate hotspot call. -/
lemma hotspotModule_fired_code {cs : Option (List (String × ℕ))}
    {v : VariantRecord} {c : EvidenceCall}
    (h : hotspotModule cs v = ModuleOutcome.fired c) :
    c = ⟨EvidenceCode.moderateHotspot, true⟩ := by
  cases cs with
  | none => simp [hotspotModule] at h
  | some clusters =>
      simp only [hotspotModule] at h
      split_ifs at h with hc
      exact ((ModuleOutcome.fired.injEq _ _).mp h).symm

/-- The allele-frequency module only ever fires frequency codes. -/
lemma alleleFrequencyModule_code {ts : ThresholdSet} {f : ℚ}
    {c : EvidenceCall} (h : alleleFrequencyModule ts f = some c) :
    c.code = EvidenceCode.strongBenignFrequency ∨
      c.code = EvidenceCode.standAloneBenignFrequency := by
  unfold alleleFrequencyModule at h
  split_ifs at h with h1 h2
  · right
    rw [((Option.some.injEq _ _).mp h).symm]
  · left
    rw [((Option.some.injEq _ _).mp h).symm]

/-- The frequency module only ever fires frequency codes. -/
lemma frequencyModule_fired_code {ts : ThresholdSet} {v : VariantRecord}
    {c : EvidenceCall}
    (h : frequencyModule ts v = ModuleOutcome.fired c) :
    c.code = EvidenceCode.strongBenignFrequency ∨
      c.code = EvidenceCode.standAloneBenignFrequency := by
  unfold frequencyModule at h
  split at h
  · simp at h
  · split at h
    · rename_i c2 hafm
      simp at h
      rw [h] at hafm
      exact alleleFrequencyModule_code hafm
    · simp at h

/-- Every call of the base pass carries neither a frequency/hotspot code nor
a database code. -/
lemma mem_baseEvidence_code {res : Resources} {v : VariantRecord}
    {c : EvidenceCall} (h : c ∈ baseEvidence res v) :
    isFrequencyOrHotspotCode c.code = false ∧
      isDatabaseCode c.code = false := by
  unfold baseEvidence baseModuleOutcomes at h
  simp [List.mem_append] at h
  rcases h with h | h | h | h
  · rw [pvs1Module_fired_code (firedCalls_eq_fired h)]
    exact ⟨rfl, rfl⟩
  · rw [knownPathogenicModule_fired_code (firedCalls_eq_fired h)]
    exact ⟨rfl, rfl⟩
  · rw [geneListModule_fired_code (firedCalls_eq_fired h)]
    exact ⟨rfl, rfl⟩
  · rw [geneListModule_fired_code (firedCalls_eq_fired h)]
    exact ⟨rfl, rfl⟩

/-- Every call of the frequency/hotspot pass carries a frequency or hotspot
code. -/
lemma mem_freqHotspotEvidence_code {cfg : EngineConfig} {res : Resources}
    {v : VariantRecord} {c : EvidenceCall}
    (h : c ∈ freqHotspotEvidence cfg res v) :
    isFrequencyOrHotspotCode c.code = true := by
  unfold freqHotspotEvidence at h
  simp [List.mem_append] at h
  rcases h with h | h
  · rcases frequencyModule_fired_code (firedCalls_eq_fired h) with hc | hc <;>
      rw [hc] <;> rfl
  · rw [hotspotModule_fired_code (firedCalls_eq_fired h)]
    rfl

/-- A frequency or hotspot code is never a database code. -/
lemma freqHotspot_not_database {c : EvidenceCode}
    (h : isFrequencyOrHotspotCode c = true) : isDatabaseCode c = false := by
  cases c <;> simp_all [isFrequencyOrHotspotCode, isDatabaseCode]

/-- C3 (amended): when the override-variant-info flag is enabled and the
pathogenicity-annotation table has a record for this exact variant, the
engine suppresses every frequency and hotspot evidence call for the variant
and synthesizes exactly one evidence call whose code carries the table's
asserted class; the fired evidence calls therefore always differ from the
flag-disabled run — the database evidence replaces, never augments, the
frequency/hotspot contribution — though the final tier of the two runs may
coincide. -/
theorem database_override_replaces (cfg : EngineConfig) (res : Resources)
    (v : VariantRecord) (e : ClinVarRecord)
    (hflag : cfg.overrideVariantInfo = true)
    (hmatch : clinvarMatch res.clinvarTable v = some e) :
    (∀ c ∈ evaluateRecord cfg res v,
        isFrequencyOrHotspotCode c.code = false) ∧
    ((evaluateRecord cfg res v).filter (fun c => isDatabaseCode c.code)
        = [databaseEvidenceCall e]) ∧
    (databaseEvidenceCall e).code
        = EvidenceCode.databaseConcordance e.assertedClass ∧
    (∀ c ∈ evaluateRecord (setOverrideFlag cfg false) res v,
        isDatabaseCode c.code = false) ∧
    evaluateRecord cfg res v
        ≠ evaluateRecord (setOverrideFlag cfg false) res v := by
  have hev : evaluateRecord cfg res v
      = baseEvidence res v ++ [databaseEvidenceCall e] := by
    unfold evaluateRecord
    rw [hflag]
    simp [hmatch]
  have hev2 : evaluateRecord (setOverrideFlag cfg false) res v
      = baseEvidence res v
        ++ freqHotspotEvidence (setOverrideFlag cfg false) res v := by
    unfold evaluateRecord setOverrideFlag
    simp
  refine ⟨?_, ?_, rfl, ?_, ?_⟩
  · intro c hc
    rw [hev] at hc
    rcases List.mem_append.mp hc with hb | hdb
    · exact (mem_baseEvidence_code hb).1
    · simp at hdb
      rw [hdb]
      rfl
  · rw [hev, List.filter_append]
    have hbase : (baseEvidence res v).filter
        (fun c => isDatabaseCode c.code) = [] := by
      rw [List.filter_eq_nil_iff]
      intro c hc
      simp [(mem_baseEvidence_code hc).2]
    rw [hbase]
    simp [databaseEvidenceCall, isDatabaseCode]
  · intro c hc
    rw [hev2] at hc
    rcases List.mem_append.mp hc with hb | hf
    · exact (mem_baseEvidence_code hb).2
    · exact freqHotspot_not_database (mem_freqHotspotEvidence_code hf)
  · rw [hev, hev2]
    intro heq
    have h1 : [databaseEvidenceCall e]
        = freqHotspotEvidence (setOverrideFlag cfg false) res v :=
      List.append_cancel_left heq
    have h2 : databaseEvidenceCall e
        ∈ freqHotspotEvidence (setOverrideFlag cfg false) res v := by
      rw [← h1]
      simp
    have h3 := mem_freqHotspotEvidence_code h2
    simp [databaseEvidenceCall, isFrequencyOrHotspotCode] at h3

/-- Example configuration with the override-variant-info flag enabled and
the default score tables. -/
def exampleOverrideConfig : EngineConfig :=
  ⟨⟨10, 5, -5, -10, 1, 3⟩, true, defaultAcmgScoreTable,
   defaultAcmgScoreTable⟩

/-- Example variant whose frequency lies strictly between the example rare
and common thresholds. -/
def exampleOverrideVariant : VariantRecord :=
  ⟨"1", 100, "A", "T", "GENE1", Consequence.missense, some 2⟩

/-- Example resources: only the pathogenicity-annotation table is supplied,
with one record matching the example variant exactly and asserting class
Uncertain. -/
def exampleOverrideResources : Resources :=
  ⟨none, none, none, none, none,
   [⟨⟨"1", 100, "A", "T"⟩, Tier.uncertain⟩]⟩

/-- C3 counterexample: at a concrete input a matching pathogenicity-table
record makes the flag-enabled and flag-disabled runs fire different evidence
calls, yet both runs classify the variant into the same final tier on both
schemes — refuting the part of the claim that says the final tier differs
whenever a matching table entry exists. -/
theorem database_override_tier_can_coincide :
    exampleOverrideConfig.overrideVariantInfo = true ∧
    clinvarMatch exampleOverrideResources.clinvarTable
        exampleOverrideVariant
      = some ⟨⟨"1", 100, "A", "T"⟩, Tier.uncertain⟩ ∧
    (runFullChain exampleOverrideConfig exampleOverrideResources
        exampleOverrideVariant).evidence
      ≠ (runFullChain (setOverrideFlag exampleOverrideConfig false)
          exampleOverrideResources exampleOverrideVariant).evidence ∧
    (runFullChain exampleOverrideConfig exampleOverrideResources
        exampleOverrideVariant).acmgTier
      = (runFullChain (setOverrideFlag exampleOverrideConfig false)
          exampleOverrideResources exampleOverrideVariant).acmgTier ∧
    (runFullChain exampleOverrideConfig exampleOverrideResources
        exampleOverrideVariant).chargerTier
      = (runFullChain (setOverrideFlag exampleOverrideConfig false)
          exampleOverrideResources exampleOverrideVariant).chargerTier := by
  refine ⟨rfl, by decide, by decide, by decide, by decide⟩

/-- Concrete instantiation of the override-replacement theorem at the
example fixture: the single synthesized call is the database call and no
frequency or hotspot call survives. -/
theorem database_override_replaces_witness :
    (evaluateRecord exampleOverrideConfig exampleOverrideResources
        exampleOverrideVariant).filter (fun c => isDatabaseCode c.code)
      = [databaseEvidenceCall ⟨⟨"1", 100, "A", "T"⟩, Tier.uncertain⟩] :=
  (database_override_replaces exampleOverrideConfig
      exampleOverrideResources exampleOverrideVariant
      ⟨⟨"1", 100, "A", "T"⟩, Tier.uncertain⟩ rfl (by decide)).2.1

/-- Running the full per-record chain twice on the identical
(record, resources, configuration) triple: the pair of the first and the
second run's results. -/
def runFullChainTwice (cfg : EngineConfig) (res : Resources)
    (v : VariantRecord) : RunResult × RunResult :=
  (runFullChain cfg res v, runFullChain cfg res v)

/-- C8: the per-record evaluation is idempotent and deterministic — running
the full module chain a second time on the identical (record, resources,
configuration) triple yields an Evidence Call list, aggregate scores and
tiers identical to the first run's.  The embedded chain is a pure function
of the triple: no state survives a run to influence the next, so the second
run's result coincides with the first definitionally. -/
theorem run_full_chain_idempotent (cfg : EngineConfig) (res : Resources)
    (v : VariantRecord) :
    (runFullChainTwice cfg res v).1.evidence
        = (runFullChainTwice cfg res v).2.evidence ∧
    (runFullChainTwice cfg res v).1.acmgScore
        = (runFullChainTwice cfg res v).2.acmgScore ∧
    (runFullChainTwice cfg res v).1.chargerScore
        = (runFullChainTwice cfg res v).2.chargerScore ∧
    (runFullChainTwice cfg res v).1.acmgTier
        = (runFullChainTwice cfg res v).2.acmgTier ∧
    (runFullChainTwice cfg res v).1.chargerTier
        = (runFullChainTwice cfg res v).2.chargerTier :=
  ⟨rfl, rfl, rfl, rfl, rfl⟩

/-- The operations the program entry point performs, in order. -/
inductive RunEvent where
  | setupLogger
  | parseConsole
  | chargerSetup
  | runAcmgModules
  | runChargerModules
deriving DecidableEq, Repr

/-- Embedding of `run` (console.py lines 224-234): the entry point sets up
logging, parses the console arguments into a configuration, constructs the
CharGer object, runs its setup (resource loading), then runs the ACMG
module pass and finally the CharGer module pass. -/
def runTrace : List RunEvent :=
  [RunEvent.setupLogger, RunEvent.parseConsole, RunEvent.chargerSetup,
   RunEvent.runAcmgModules, RunEvent.runChargerModules]

/-- C9: in every invocation the standards-body (ACMG) module pass runs
before the extended (CharGer) module pass, each exactly once, and only
after setup/resource loading; the extended pass is never executed before
the standards-body pass. -/
theorem acmg_pass_before_charger_pass :
    runTrace.count RunEvent.runAcmgModules = 1 ∧
    runTrace.count RunEvent.runChargerModules = 1 ∧
    runTrace.indexOf RunEvent.chargerSetup
        < runTrace.indexOf RunEvent.runAcmgModules ∧
    runTrace.indexOf RunEvent.runAcmgModules
        < runTrace.indexOf RunEvent.runChargerModules := by
  decide

/-- The configuration object produced by a successful console parse,
reduced to the field C10 is about. -/
structure CharGerConfig where
  input : String
deriving DecidableEq, Repr

/-- Embedding of `parse_console` (console.py lines 187-196) together with
the declared constraints of `create_console_parser` (lines 50-56): the
`--input` option is declared required with type PathType requiring an
existing path (argtype.py is absent from the snapshot; the PathType
behavior is modelled from the option declaration and help text).  The
argument list is an association list from option name to value and the
filesystem is a predicate telling which paths exist; a missing `--input`
or a non-existent input path makes the parser fail with an error instead
of returning a configuration. -/
def parse_console (args : List (String × String))
    (pathExists : String → Bool) : Except String CharGerConfig :=
  match args.lookup "--input" with
  | none => Except.error "the following arguments are required: --input"
  | some p =>
      if pathExists p then Except.ok ⟨p⟩
      else Except.error (String.append p " does not exist")

/-- C10: an argument list without an `--input` option makes parse_console
fail with an error and no configuration is returned; a configuration is
produced only when `--input` is supplied with a path that exists, and the
returned configuration carries exactly that path. -/
theorem parse_console_requires_existing_input
    (args : List (String × String)) (pathExists : String → Bool) :
    (args.lookup "--input" = none →
      ∃ msg, parse_console args pathExists = Except.error msg) ∧
    (∀ cfg : CharGerConfig, parse_console args pathExists = Except.ok cfg →
      args.lookup "--input" = some cfg.input ∧
        pathExists cfg.input = true) := by
  constructor
  · intro h
    unfold parse_console
    rw [h]
    exact ⟨_, rfl⟩
  · intro cfg h
    unfold parse_console at h
    cases hl : args.lookup "--input" with
    | none =>
        rw [hl] at h
        exact absurd h (by simp)
    | some p =>
        rw [hl] at h
        simp only [] at h
        split_ifs at h with hp
        have hcfg : (⟨p⟩ : CharGerConfig) = cfg :=
          (Except.ok.injEq _ _).mp h
        rw [← hcfg]
        exact ⟨rfl, hp⟩

/-- Concrete instantiation of the parser contract: an argument list with
only `--output` is rejected, while `--input` pointing at an existing path
yields a configuration carrying that path. -/
theorem parse_console_requires_existing_input_witness :
    (∃ msg, parse_console [("--output", "out.tsv")] (fun _ => true)
        = Except.error msg) ∧
    ([(("--input" : String), ("in.vcf" : String))].lookup "--input"
        = some "in.vcf") := by
  constructor
  · exact (parse_console_requires_existing_input
      [("--output", "out.tsv")] (fun _ => true)).1 rfl
  · exact ((parse_console_requires_existing_input
      [("--input", "in.vcf")] (fun _ => true)).2 ⟨"in.vcf"⟩ rfl).1

end CharGer
